import Mathlib

/-!
Shallow embedding of the xAPI LRS auth proxy's request-path pipeline:
the statement/claims data model (internal/models/token.go), the permission
evaluator (internal/validator/permissions.go), the statements write handler
(internal/handlers/handlers.go), the token issuance validation
(internal/handlers/handlers.go, IssueToken), and the JWT verification
middleware (internal/middleware/middleware.go, JWTAuthMiddleware).

Go strings are Lean `String`s; absent optional JSON string fields decode to
the Go zero value `""`, so `""` models an absent field.  Go nil-able struct
pointers become `Option`.  Opaque `map[string]interface{}` fields
(metadata, result, extensions, definition) are not consulted by any code
under verification and are omitted from the records.  Go `error` results
become `Option` of a denial-reason type (`none` = nil error = admit); the
reason constructors correspond one-to-one to the distinct `fmt.Errorf`
sites of the source, carrying an argument exactly when the Go format string
interpolates data that can differ between two denials at the same site in a
way the claims depend on.
-/

/-- xAPI account (internal/models/token.go, `Account`). -/
structure Account where
  homePage : String
  name : String
deriving Repr, DecidableEq

/-- xAPI actor (internal/models/token.go, `Actor`). -/
structure Actor where
  objectType : String := ""
  name : String := ""
  mbox : String := ""
  mboxSHA1 : String := ""
  openID : String := ""
  account : Option Account := none
deriving Repr, DecidableEq

/-- xAPI group actor (internal/models/token.go, `Group`; named `XGroup` here
because `Group` is taken by the ambient library). -/
structure XGroup where
  objectType : String
  name : String
  member : List Actor
deriving Repr, DecidableEq

/-- Permission scopes carried by a token (internal/models/token.go, `Permissions`). -/
structure Permissions where
  write : String
  read : String
deriving Repr, DecidableEq

/-- JWT claims payload (internal/models/token.go, `Claims`).  The embedded
`jwt.RegisteredClaims` (exp/iat/iss/sub) are handled by the external JWT
library and are not consulted by the permission evaluator; they are omitted. -/
structure Claims where
  tenantID : String := ""
  actor : Actor
  registration : String
  activityID : String
  courseID : String := ""
  permissions : Permissions
  group : Option XGroup := none
deriving Repr, DecidableEq

/-- Token issuance request body (internal/models/token.go, `TokenRequest`). -/
structure TokenRequest where
  actor : Actor
  registration : String
  activityID : String
  courseID : String := ""
  permissions : Permissions
  group : Option XGroup := none
deriving Repr, DecidableEq

/-- xAPI verb (internal/models/token.go, `Verb`). -/
structure Verb where
  id : String
deriving Repr, DecidableEq

/-- xAPI statement object (internal/models/token.go, `Object`). -/
structure SObject where
  objectType : String := ""
  id : String
deriving Repr, DecidableEq

/-- xAPI statement context (internal/models/token.go, `Context`). -/
structure SContext where
  registration : String := ""
  instructor : Option Actor := none
  team : Option XGroup := none
deriving Repr, DecidableEq

/-- xAPI statement (internal/models/token.go, `Statement`).  `Context` is a
nil-able pointer in Go, hence `Option`. -/
structure Statement where
  id : String := ""
  actor : Actor
  verb : Verb
  object : SObject
  context : Option SContext := none
deriving Repr, DecidableEq

/-- `Actor.Equals` (internal/models/token.go): compare the first identifier
pair that is populated (non-empty string / non-nil account) on both sides,
in source order mbox, mbox_sha1sum, openid, account. -/
def Actor.equals (a : Actor) (other : Actor) : Bool :=
  if a.mbox != "" && other.mbox != "" then a.mbox == other.mbox
  else if a.mboxSHA1 != "" && other.mboxSHA1 != "" then a.mboxSHA1 == other.mboxSHA1
  else if a.openID != "" && other.openID != "" then a.openID == other.openID
  else
    match a.account, other.account with
    | some x, some y => x.homePage == y.homePage && x.name == y.name
    | _, _ => false

/-- `Group.IsMember` (internal/models/token.go): some member equals the actor. -/
def XGroup.isMember (g : XGroup) (actor : Actor) : Bool :=
  g.member.any (fun m => m.equals actor)

/-- The issuance-valid scope set (internal/models/token.go, `ValidatePermission`). -/
def validScopes : List String :=
  ["actor-activity-registration-scoped",
   "actor-course-registration-scoped",
   "actor-activity-all-registrations",
   "actor-cross-course-certification",
   "group-activity-registration-scoped",
   "course-aggregate-only",
   "course-peer-shared",
   "false"]

/-- `ValidatePermission` (internal/models/token.go): error iff the scope is
not in the valid set; the Go map lookup with only `true` values is a set
membership test. -/
def ValidatePermission (scope : String) : Option String :=
  if validScopes.contains scope then none
  else some ("invalid permission scope: " ++ scope)

/-- Go `strings.Contains` on char lists: `needle` occurs as a contiguous
infix of `hay` (the empty needle is contained in every string). -/
def listIsPrefixOfL : List Char → List Char → Bool
  | [], _ => true
  | _ :: _, [] => false
  | a :: as, b :: bs => a == b && listIsPrefixOfL as bs

/-- Helper for `containsSubstr`: scan every suffix of the haystack. -/
def listContainsL : List Char → List Char → Bool
  | hay, needle =>
    if listIsPrefixOfL needle hay then true
    else
      match hay with
      | [] => false
      | _ :: t => listContainsL t needle

/-- Go `strings.Contains hay needle`. -/
def containsSubstr (hay needle : String) : Bool :=
  listContainsL hay.data needle.data

/-- Denial reasons of the write validators, one constructor per
`fmt.Errorf` site of `ValidateWrite` and its helpers
(internal/validator/permissions.go). -/
inductive WriteDenial
  | writePermissionDenied
  | actorMismatch
  | activityMismatch
  | registrationMismatch
  | groupActorRequired
  | groupMismatch
  | actorNotGroupMember
  | unsupportedScope (scope : String)
deriving Repr, DecidableEq

/-- Denial reasons of the read validators (internal/validator/permissions.go). -/
inductive ReadDenial
  | readPermissionDenied
  | agentMismatch
  | activityMismatch
  | registrationMismatch
  | unsupportedScope (scope : String)
deriving Repr, DecidableEq

/-- Denial reasons of `ValidateStateAccess` (internal/validator/permissions.go). -/
inductive StateDenial
  | agentMismatch
  | activityMismatch
  | registrationMismatch
deriving Repr, DecidableEq

/-- `validateActorActivityRegistration` (internal/validator/permissions.go):
actor must match, activity must match, context must be non-nil with matching
registration. -/
def validateActorActivityRegistration (C : Claims) (stmt : Statement) :
    Option WriteDenial :=
  if !(C.actor.equals stmt.actor) then some .actorMismatch
  else if stmt.object.id != C.activityID then some .activityMismatch
  else
    match stmt.context with
    | none => some .registrationMismatch
    | some ctx =>
      if ctx.registration != C.registration then some .registrationMismatch
      else none

/-- `validateGroupActivityRegistration` (internal/validator/permissions.go).
The Go condition `claims.Group == nil || stmt.Actor.Name != claims.Group.Name`
is the nil-match plus name-mismatch branch here. -/
def validateGroupActivityRegistration (C : Claims) (stmt : Statement) :
    Option WriteDenial :=
  if stmt.actor.objectType != "Group" then some .groupActorRequired
  else
    match C.group with
    | none => some .groupMismatch
    | some g =>
      if stmt.actor.name != g.name then some .groupMismatch
      else if !(g.isMember C.actor) then some .actorNotGroupMember
      else if stmt.object.id != C.activityID then some .activityMismatch
      else
        match stmt.context with
        | none => some .registrationMismatch
        | some ctx =>
          if ctx.registration != C.registration then some .registrationMismatch
          else none

/-- `ValidateWrite` (internal/validator/permissions.go).  The receiver's
`policy` field is not consulted by the write path in the source; the
parameter is kept to mirror the `PermissionValidator` receiver. -/
def ValidateWrite (_policy : String) (C : Claims) (stmt : Statement) :
    Option WriteDenial :=
  let scope := C.permissions.write
  if scope = "false" then some .writePermissionDenied
  else if scope = "actor-activity-registration-scoped" then
    validateActorActivityRegistration C stmt
  else if scope = "group-activity-registration-scoped" then
    validateGroupActivityRegistration C stmt
  else some (.unsupportedScope scope)

/-- Query parameters consulted by the read validators.  The handler builds a
`map[string]string` from the URL query; the validators read only the keys
`agent`, `activity`, `registration`, and a missing key yields `""`. -/
structure Query where
  agent : String := ""
  activity : String := ""
  registration : String := ""
deriving Repr, DecidableEq

/-- The source's "agent parameter identifies the claims actor" test: the Go
denial condition is `!strings.Contains(agent, actor.Mbox) &&
!strings.Contains(agent, actor.OpenID)`, i.e. admit this check iff the
serialized agent contains the mbox or the openid substring. -/
def agentIdentifies (agent : String) (a : Actor) : Bool :=
  containsSubstr agent a.mbox || containsSubstr agent a.openID

/-- `validateActorActivityRegistrationRead` (internal/validator/permissions.go). -/
def validateActorActivityRegistrationRead (C : Claims) (q : Query) :
    Option ReadDenial :=
  if q.agent != "" && !(agentIdentifies q.agent C.actor) then some .agentMismatch
  else if q.activity != "" && q.activity != C.activityID then some .activityMismatch
  else if q.registration != "" && q.registration != C.registration then
    some .registrationMismatch
  else none

/-- `validateActorCourseRegistrationRead` (internal/validator/permissions.go):
activity is unconstrained. -/
def validateActorCourseRegistrationRead (C : Claims) (q : Query) :
    Option ReadDenial :=
  if q.agent != "" && !(agentIdentifies q.agent C.actor) then some .agentMismatch
  else if q.registration != "" && q.registration != C.registration then
    some .registrationMismatch
  else none

/-- `validateActorActivityAllRegistrationsRead`
(internal/validator/permissions.go): registration is unconstrained. -/
def validateActorActivityAllRegistrationsRead (C : Claims) (q : Query) :
    Option ReadDenial :=
  if q.agent != "" && !(agentIdentifies q.agent C.actor) then some .agentMismatch
  else if q.activity != "" && q.activity != C.activityID then some .activityMismatch
  else none

/-- `validateGroupActivityRegistrationRead`
(internal/validator/permissions.go): only activity and registration are
checked; neither the claims group nor the agent parameter is consulted. -/
def validateGroupActivityRegistrationRead (C : Claims) (q : Query) :
    Option ReadDenial :=
  if q.activity != "" && q.activity != C.activityID then some .activityMismatch
  else if q.registration != "" && q.registration != C.registration then
    some .registrationMismatch
  else none

/-- `ValidateRead` (internal/validator/permissions.go).  Unlike the write
path, the default branch consults the validator's `policy`. -/
def ValidateRead (policy : String) (C : Claims) (q : Query) :
    Option ReadDenial :=
  let scope := C.permissions.read
  if scope = "false" then some .readPermissionDenied
  else if scope = "actor-activity-registration-scoped" then
    validateActorActivityRegistrationRead C q
  else if scope = "actor-course-registration-scoped" then
    validateActorCourseRegistrationRead C q
  else if scope = "actor-activity-all-registrations" then
    validateActorActivityAllRegistrationsRead C q
  else if scope = "group-activity-registration-scoped" then
    validateGroupActivityRegistrationRead C q
  else if policy = "permissive" then none
  else some (.unsupportedScope scope)

/-- `ValidateStateAccess` (internal/validator/permissions.go): agent must
contain mbox or openid; under the default read scope, activity and
registration must additionally match exactly. -/
def ValidateStateAccess (C : Claims) (activityID agent registration : String) :
    Option StateDenial :=
  if !(agentIdentifies agent C.actor) then some .agentMismatch
  else if C.permissions.read = "actor-activity-registration-scoped" then
    if activityID != C.activityID then some .activityMismatch
    else if registration != C.registration then some .registrationMismatch
    else none
  else none

/-- Outcome of the statements write handler: either a 403 denial naming the
zero-based index of the first failing statement, or the batch body forwarded
upstream (`proxyStatementsWrite` in internal/handlers/handlers.go). -/
inductive WriteOutcome
  | forbidden (index : Nat) (reason : WriteDenial)
  | forward (body : List Statement)
deriving Repr, DecidableEq

/-- The Go `for i, stmt := range statements` loop of `proxyStatementsWrite`:
return the zero-based index and reason of the first statement that
`ValidateWrite` denies, or `none` when every statement admits. -/
def firstDenial (policy : String) (C : Claims) : List Statement →
    Option (Nat × WriteDenial)
  | [] => none
  | s :: rest =>
    match ValidateWrite policy C s with
    | some r => some (0, r)
    | none => (firstDenial policy C rest).map (fun p => (p.1 + 1, p.2))

/-- `proxyStatementsWrite` (internal/handlers/handlers.go), after the body
has been parsed into a list of statements: on the first denial respond 403
with its index and reason and send nothing upstream; otherwise forward the
body to the LRS. -/
def proxyStatementsWrite (policy : String) (C : Claims)
    (stmts : List Statement) : WriteOutcome :=
  match firstDenial policy C stmts with
  | some (i, r) => .forbidden i r
  | none => .forward stmts

/-- HTTP status the handler itself writes: 403 on denial; on forward the
status comes from the upstream response. -/
def WriteOutcome.statusCode : WriteOutcome → Option Nat
  | .forbidden _ _ => some 403
  | .forward _ => none

/-- Bytes delivered upstream: nothing on denial, the batch on forward. -/
def WriteOutcome.upstreamBody : WriteOutcome → Option (List Statement)
  | .forbidden _ _ => none
  | .forward b => some b

/-- The request-validation phase of `IssueToken`
(internal/handlers/handlers.go): after decoding the body, the handler runs
`models.ValidatePermission` on the requested write scope and then on the
read scope, answering 400 with the scope error on failure; no other field
of the request is validated before the token is minted. -/
def issueTokenValidate (req : TokenRequest) : Option String :=
  match ValidatePermission req.permissions.write with
  | some e => some e
  | none =>
    match ValidatePermission req.permissions.read with
    | some e => some e
    | none => none

/-- `ProxyAgentProfile` (internal/handlers/handlers.go): the handler reads
the `agent` query parameter and the verified claims but performs no
check against them (`_ = claims; _ = agent` in the source); it always
forwards to the LRS.  `none` = no denial = forwarded. -/
def proxyAgentProfileDecision (_claims : Claims) (_agent : String) :
    Option String := none

/-- The slice of `store.TenantConfig` consulted by `JWTAuthMiddleware`:
the tenant id compared against the token's claims.  The signing secret is
consumed only inside the external JWT library call, which is abstracted as
the parse function below. -/
structure TenantConfig where
  tenantID : String
  permissionPolicy : String := "strict"
deriving Repr, DecidableEq

/-- Outcome of the external `jwt.ParseWithClaims` call: an error (malformed
token, wrong algorithm, bad signature, expired), or a parsed token with its
`Valid` flag and the result of the `token.Claims.(*models.Claims)` type
assertion (`none` = assertion failed). -/
inductive JWTParseOutcome
  | parseError
  | parsed (valid : Bool) (claims : Option Claims)
deriving Repr, DecidableEq

/-- Result of an authentication middleware: reject with an HTTP status and
body text, or pass the decoded claims to the next handler. -/
inductive MWResult
  | reject (status : Nat) (msg : String)
  | pass (claims : Claims)
deriving Repr, DecidableEq

/-- Go `strings.SplitN(s, " ", 2)` on char lists: split around the first
space, if any. -/
def splitFirstSpace : List Char → Option (List Char × List Char)
  | [] => none
  | c :: cs =>
    if c = ' ' then some ([], cs)
    else
      match splitFirstSpace cs with
      | none => none
      | some (l, r) => some (c :: l, r)

/-- Go `strings.SplitN(auth, " ", 2)`: one piece when there is no space,
otherwise the part before the first space and everything after it. -/
def splitN2 (s : String) : List String :=
  match splitFirstSpace s.data with
  | none => [s]
  | some (l, r) => [String.mk l, String.mk r]

/-- `JWTAuthMiddleware` (internal/middleware/middleware.go): require a
`Bearer` authorization header, run the JWT library parse (abstracted as
`parse`), require a valid token whose claims decode, and require the
claims' tenant id to equal the resolved tenant's.  Each failure answers
HTTP 401 with the source's message for that branch. -/
def JWTAuthMiddleware (tenant : TenantConfig) (auth : String)
    (parse : String → JWTParseOutcome) : MWResult :=
  if auth = "" then .reject 401 "Authorization required"
  else
    match splitN2 auth with
    | [p0, tokenString] =>
      if p0 != "Bearer" then .reject 401 "Invalid authorization format"
      else
        match parse tokenString with
        | .parseError => .reject 401 "Invalid token"
        | .parsed valid claimsOpt =>
          if !valid then .reject 401 "Invalid token"
          else
            match claimsOpt with
            | none => .reject 401 "Invalid token claims"
            | some claims =>
              if claims.tenantID != tenant.tenantID then
                .reject 401 "Invalid token"
              else .pass claims
    | _ => .reject 401 "Invalid authorization format"

/-! ### Helper lemmas -/

/-- Go `strings.Contains(s, "")` is true for every `s`. -/
theorem containsSubstr_empty_needle (s : String) : containsSubstr s "" = true := by
  show listContainsL s.data [] = true
  unfold listContainsL
  simp [listIsPrefixOfL]

/-- An actor with an empty `openid` passes the substring-based agent check
against every serialized agent parameter. -/
theorem agentIdentifies_of_openID_empty (a : Actor) (h : a.openID = "")
    (agent : String) : agentIdentifies agent a = true := by
  unfold agentIdentifies
  rw [h, containsSubstr_empty_needle]
  simp

/-! ### C9: actor equality -/

/-- The spec's identifier kinds, in the order the spec lists them. -/
inductive IdCheck
  | mboxC
  | shaC
  | openidC
  | accountC
deriving Repr, DecidableEq

/-- "Populated": non-empty string for the string identifiers, present
account for the account identifier. -/
def populatedOn (c : IdCheck) (a : Actor) : Bool :=
  match c with
  | .mboxC => a.mbox != ""
  | .shaC => a.mboxSHA1 != ""
  | .openidC => a.openID != ""
  | .accountC => a.account.isSome

/-- "Matches": equality of the identifier; for account, both homepage and
name must be equal. -/
def idMatches (c : IdCheck) (a b : Actor) : Bool :=
  match c with
  | .mboxC => a.mbox == b.mbox
  | .shaC => a.mboxSHA1 == b.mboxSHA1
  | .openidC => a.openID == b.openID
  | .accountC =>
    match a.account, b.account with
    | some x, some y => x.homePage == y.homePage && x.name == y.name
    | _, _ => false

/-- The spec's wording of actor equality: find the first identifier pair,
in the order mbox, mbox_sha1, openid, account, that is populated on both
sides, and compare it; with no such pair the actors are unequal. -/
def actorEqualsSpec (a b : Actor) : Bool :=
  match [IdCheck.mboxC, .shaC, .openidC, .accountC].find?
      (fun c => populatedOn c a && populatedOn c b) with
  | some c => idMatches c a b
  | none => false

/-- C9: for every pair of actors, the source's `Actor.Equals` agrees with
the spec's first-populated-identifier equality: the result is the
comparison of the first of mbox, mbox_sha1, openid, account populated on
both sides (account comparing homepage and name), and `false` when no
identifier is populated on both sides. -/
theorem actorEquals_spec_refinement (a b : Actor) :
    a.equals b = actorEqualsSpec a b := by
  unfold Actor.equals actorEqualsSpec
  by_cases h1 : (a.mbox != "" && b.mbox != "") = true
  · simp [List.find?, populatedOn, h1, idMatches]
  · by_cases h2 : (a.mboxSHA1 != "" && b.mboxSHA1 != "") = true
    · simp [List.find?, populatedOn, h1, h2, idMatches]
    · by_cases h3 : (a.openID != "" && b.openID != "") = true
      · simp [List.find?, populatedOn, h1, h2, h3, idMatches]
      · cases ha : a.account with
        | none =>
          simp [List.find?, populatedOn, h1, h2, h3, idMatches, ha]
        | some x =>
          cases hb : b.account with
          | none => simp [List.find?, populatedOn, h1, h2, h3, idMatches, ha, hb]
          | some y => simp [List.find?, populatedOn, h1, h2, h3, idMatches, ha, hb]

/-! ### C1: default write isolation -/

/-- Test actor for the C1 counterexample. -/
def actorA : Actor := { mbox := "mailto:a@x" }

/-- Claims whose registration field is empty (such tokens are mintable:
`IssueToken` does not validate the registration). -/
def claimsC1 : Claims :=
  { actor := actorA, registration := "", activityID := "https://ex/a",
    permissions := { write := "actor-activity-registration-scoped", read := "false" } }

/-- A statement whose context is present but carries no registration. -/
def stmtC1 : Statement :=
  { actor := actorA, verb := { id := "v" }, object := { id := "https://ex/a" },
    context := some { registration := "" } }

/-- C1 counterexample: under the default write scope, a statement whose
`context.registration` is absent (the empty string, the decoded form of a
missing JSON field) is admitted when the claims' registration is itself
empty, contradicting "a statement with absent context.registration is
denied". -/
theorem validateWrite_absent_registration_admitted :
    claimsC1.permissions.write = "actor-activity-registration-scoped" ∧
    stmtC1.context.map SContext.registration = some "" ∧
    ValidateWrite "strict" claimsC1 stmtC1 = none :=
  ⟨rfl, rfl, by decide⟩

/-- C1 (amended): under write scope `actor-activity-registration-scoped`,
`ValidateWrite` admits a statement iff the actor matches under actor
equality, the object id equals the claims' activity id, and the context is
present with registration equal to the claims' registration; a statement
with absent context is always denied, and a statement with absent
(empty) `context.registration` is denied whenever the claims' registration
is non-empty. -/
theorem validateWrite_default_scope_characterization
    (pol : String) (C : Claims) (s : Statement)
    (hw : C.permissions.write = "actor-activity-registration-scoped") :
    (ValidateWrite pol C s = none ↔
      (C.actor.equals s.actor = true ∧ s.object.id = C.activityID ∧
       ∃ ctx, s.context = some ctx ∧ ctx.registration = C.registration))
    ∧ (s.context = none → ValidateWrite pol C s ≠ none)
    ∧ (C.registration ≠ "" → s.context.map SContext.registration = some "" →
        ValidateWrite pol C s ≠ none) := by
  have hred : ValidateWrite pol C s = validateActorActivityRegistration C s := by
    unfold ValidateWrite
    simp [hw]
  rw [hred]
  refine ⟨?_, ?_, ?_⟩
  · constructor
    · intro h
      by_cases hA : C.actor.equals s.actor = true
      · by_cases hO : s.object.id = C.activityID
        · cases hc : s.context with
          | none => simp [validateActorActivityRegistration, hA, hO, hc] at h
          | some ctx =>
            by_cases hr : ctx.registration = C.registration
            · exact ⟨hA, hO, ctx, rfl, hr⟩
            · simp [validateActorActivityRegistration, hA, hO, hc, hr] at h
        · simp [validateActorActivityRegistration, hA, hO] at h
      · simp [validateActorActivityRegistration, hA] at h
    · rintro ⟨hA, hO, ctx, hc, hr⟩
      simp [validateActorActivityRegistration, hA, hO, hc, hr]
  · intro hc
    simp [validateActorActivityRegistration, hc]
    split_ifs <;> simp
  · intro hne hreg
    cases hc : s.context with
    | none => rw [hc] at hreg; simp at hreg
    | some ctx =>
      rw [hc] at hreg
      simp at hreg
      have hr : ctx.registration ≠ C.registration := by
        rw [hreg]; exact fun h => hne h.symm
      simp [validateActorActivityRegistration, hc, hr]
      split_ifs <;> simp

/-- C1 witness: the characterization applied at a concrete claims/statement
pair; the admitting direction yields an accepted write. -/
theorem validateWrite_default_scope_witness :
    ValidateWrite "strict"
      { actor := { mbox := "mailto:w@x" }, registration := "R1",
        activityID := "https://ex/w",
        permissions := { write := "actor-activity-registration-scoped",
                         read := "false" } }
      { actor := { mbox := "mailto:w@x" }, verb := { id := "v" },
        object := { id := "https://ex/w" },
        context := some { registration := "R1" } } = none :=
  ((validateWrite_default_scope_characterization "strict" _ _ rfl).1).mpr
    ⟨by decide, rfl, ⟨{ registration := "R1" }, rfl, rfl⟩⟩

/-! ### C2: batch atomicity of statement writes -/

/-- `firstDenial` answers `none` exactly when every statement in the batch
admits. -/
theorem firstDenial_none_iff (pol : String) (C : Claims)
    (stmts : List Statement) :
    firstDenial pol C stmts = none ↔
      ∀ s ∈ stmts, ValidateWrite pol C s = none := by
  induction stmts with
  | nil => simp [firstDenial]
  | cons s rest ih =>
    cases h : ValidateWrite pol C s with
    | some r => simp [firstDenial, h]
    | none => simp [firstDenial, h, ih]

/-- `firstDenial` reports the zero-based index of the first failing
statement: the statement at the index fails with the reported reason and
every earlier statement admits. -/
theorem firstDenial_some_spec (pol : String) (C : Claims) :
    ∀ (stmts : List Statement) (i : Nat) (r : WriteDenial),
      firstDenial pol C stmts = some (i, r) →
      ∃ s, stmts.get? i = some s ∧ ValidateWrite pol C s = some r ∧
        ∀ j, j < i → ∃ s', stmts.get? j = some s' ∧
          ValidateWrite pol C s' = none := by
  intro stmts
  induction stmts with
  | nil => intro i r h; simp [firstDenial] at h
  | cons s rest ih =>
    intro i r h
    cases hv : ValidateWrite pol C s with
    | some r0 =>
      simp [firstDenial, hv] at h
      obtain ⟨hi, hr⟩ := h
      refine ⟨s, ?_, ?_, ?_⟩
      · rw [← hi]; rfl
      · rw [← hr]; exact hv
      · intro j hj; omega
    | none =>
      simp [firstDenial, hv] at h
      cases hrest : firstDenial pol C rest with
      | none => rw [hrest] at h; simp at h
      | some p =>
        obtain ⟨p1, p2⟩ := p
        rw [hrest] at h
        simp at h
        obtain ⟨q, ⟨hq1, hq2⟩, hqi⟩ := h
        subst hq2
        have hii : i = p1 + 1 := by omega
        subst hii
        obtain ⟨s1, hget, hvs, hprev⟩ := ih p1 p2 hrest
        refine ⟨s1, by simpa using hget, hvs, ?_⟩
        intro j hj
        cases j with
        | zero => exact ⟨s, rfl, hv⟩
        | succ k =>
          have hk : k < p1 := by omega
          obtain ⟨s', h1, h2⟩ := hprev k hk
          exact ⟨s', by simpa using h1, h2⟩

/-- C2: the write handler forwards the batch iff every statement admits
(in received order); otherwise it answers 403 naming the zero-based index
of the first failing statement and its reason, with nothing sent upstream. -/
theorem proxyStatementsWrite_batch_atomicity (pol : String) (C : Claims)
    (stmts : List Statement) :
    (proxyStatementsWrite pol C stmts = .forward stmts ↔
      ∀ s ∈ stmts, ValidateWrite pol C s = none)
    ∧ (∀ i r, proxyStatementsWrite pol C stmts = .forbidden i r →
        (proxyStatementsWrite pol C stmts).statusCode = some 403 ∧
        (proxyStatementsWrite pol C stmts).upstreamBody = none ∧
        ∃ s, stmts.get? i = some s ∧ ValidateWrite pol C s = some r ∧
          ∀ j, j < i → ∃ s', stmts.get? j = some s' ∧
            ValidateWrite pol C s' = none) := by
  constructor
  · constructor
    · intro h
      cases hf : firstDenial pol C stmts with
      | none => exact (firstDenial_none_iff pol C stmts).mp hf
      | some p =>
        obtain ⟨p1, p2⟩ := p
        simp [proxyStatementsWrite, hf] at h
    · intro h
      simp [proxyStatementsWrite, (firstDenial_none_iff pol C stmts).mpr h]
  · intro i r h
    cases hf : firstDenial pol C stmts with
    | none => simp [proxyStatementsWrite, hf] at h
    | some p =>
      obtain ⟨p1, p2⟩ := p
      simp [proxyStatementsWrite, hf] at h
      obtain ⟨h1, h2⟩ := h
      subst h1; subst h2
      refine ⟨?_, ?_, ?_⟩
      · simp [proxyStatementsWrite, hf, WriteOutcome.statusCode]
      · simp [proxyStatementsWrite, hf, WriteOutcome.upstreamBody]
      · exact firstDenial_some_spec pol C stmts p1 p2 hf

/-- C2 witness: a concrete singleton batch whose statement admits is
forwarded, via the atomicity theorem. -/
theorem proxyStatementsWrite_batch_atomicity_witness :
    proxyStatementsWrite "strict"
      { actor := { mbox := "mailto:b@x" }, registration := "R2",
        activityID := "https://ex/b",
        permissions := { write := "actor-activity-registration-scoped",
                         read := "false" } }
      [{ actor := { mbox := "mailto:b@x" }, verb := { id := "v" },
         object := { id := "https://ex/b" },
         context := some { registration := "R2" } }] =
      .forward [{ actor := { mbox := "mailto:b@x" }, verb := { id := "v" },
                  object := { id := "https://ex/b" },
                  context := some { registration := "R2" } }] :=
  (proxyStatementsWrite_batch_atomicity _ _ _).1.mpr (by decide)

/-! ### C3: unknown scopes at verification time -/

/-- The write scopes with a branch in `ValidateWrite`'s switch
(including the `"false"` guard). -/
def knownWriteScopes : List String :=
  ["false", "actor-activity-registration-scoped",
   "group-activity-registration-scoped"]

/-- The read scopes with a branch in `ValidateRead`'s switch
(including the `"false"` guard). -/
def knownReadScopes : List String :=
  ["false", "actor-activity-registration-scoped",
   "actor-course-registration-scoped", "actor-activity-all-registrations",
   "group-activity-registration-scoped"]

/-- Claims carrying a scope that is valid at issuance but unknown to the
evaluator. -/
def claimsC3 : Claims :=
  { actor := { mbox := "mailto:c@x" }, registration := "R", activityID := "a",
    permissions := { write := "course-aggregate-only", read := "false" } }

/-- A statement matching `claimsC3` in actor, activity and registration. -/
def stmtC3 : Statement :=
  { actor := { mbox := "mailto:c@x" }, verb := { id := "v" },
    object := { id := "a" }, context := some { registration := "R" } }

/-- C3 counterexample: with a permissive tenant policy and an unknown write
scope, `ValidateWrite` still denies — its default branch ignores the
policy — contradicting "admits if and only if the tenant's policy is
permissive". -/
theorem validateWrite_unknown_scope_permissive_denies :
    claimsC3.permissions.write = "course-aggregate-only" ∧
    ValidateWrite "permissive" claimsC3 stmtC3 =
      some (.unsupportedScope "course-aggregate-only") :=
  ⟨rfl, by decide⟩

/-- C3 (amended): on a scope outside the evaluator's known branches,
`ValidateRead` admits iff the tenant policy is permissive, but
`ValidateWrite` denies regardless of the policy. -/
theorem unknown_scope_policy_behavior (pol : String) (C : Claims)
    (q : Query) (s : Statement) :
    (C.permissions.read ∉ knownReadScopes →
      (ValidateRead pol C q = none ↔ pol = "permissive"))
    ∧ (C.permissions.write ∉ knownWriteScopes →
      ValidateWrite pol C s ≠ none) := by
  constructor
  · intro h
    simp [knownReadScopes] at h
    obtain ⟨h1, h2, h3, h4, h5⟩ := h
    by_cases hp : pol = "permissive"
    · simp [ValidateRead, h1, h2, h3, h4, h5, hp]
    · simp [ValidateRead, h1, h2, h3, h4, h5, hp]
  · intro h
    simp [knownWriteScopes] at h
    obtain ⟨h1, h2, h3⟩ := h
    simp [ValidateWrite, h1, h2, h3]

/-- C3 witness: a permissive-policy read under the unknown scope
`course-peer-shared` is admitted, via the amended theorem. -/
theorem unknown_scope_policy_behavior_witness :
    ValidateRead "permissive"
      { actor := { mbox := "mailto:c@x" }, registration := "R",
        activityID := "a",
        permissions := { write := "false", read := "course-peer-shared" } }
      {} = none :=
  ((unknown_scope_policy_behavior "permissive" _ {} stmtC3).1
    (by decide)).mpr rfl

/-! ### C4: null group under a group scope -/

/-- Claims with a group read scope but no group. -/
def claimsC4 : Claims :=
  { actor := { mbox := "mailto:d@x" }, registration := "R", activityID := "a",
    permissions := { write := "false",
                     read := "group-activity-registration-scoped" },
    group := none }

/-- An arbitrary statement for the C4 write direction. -/
def stmtC4 : Statement :=
  { actor := { objectType := "Group", name := "g" }, verb := { id := "v" },
    object := { id := "a" }, context := some { registration := "R" } }

/-- C4 counterexample: with `group = null` and the group read scope, the
empty query is admitted by `ValidateRead` — the group read branch never
consults the group — contradicting "deny … every query under that scope". -/
theorem groupRead_null_group_admits_query :
    claimsC4.group = none ∧
    claimsC4.permissions.read = "group-activity-registration-scoped" ∧
    ValidateRead "strict" claimsC4 {} = none :=
  ⟨rfl, rfl, by decide⟩

/-- C4 (amended): with `group = null`, the group-scoped write path fails
closed (every statement is denied), but the group-scoped read path ignores
the group entirely: it admits exactly the queries whose activity and
registration parameters are absent or equal to the claims' values. -/
theorem null_group_scope_behavior (pol : String) (C : Claims)
    (s : Statement) (q : Query) (hg : C.group = none) :
    (C.permissions.write = "group-activity-registration-scoped" →
      ValidateWrite pol C s ≠ none)
    ∧ (C.permissions.read = "group-activity-registration-scoped" →
      (ValidateRead pol C q = none ↔
        (q.activity = "" ∨ q.activity = C.activityID) ∧
        (q.registration = "" ∨ q.registration = C.registration))) := by
  constructor
  · intro hw
    have hred : ValidateWrite pol C s = validateGroupActivityRegistration C s := by
      simp [ValidateWrite, hw]
    rw [hred]
    unfold validateGroupActivityRegistration
    rw [hg]
    split_ifs <;> simp
  · intro hr
    have hred : ValidateRead pol C q = validateGroupActivityRegistrationRead C q := by
      simp [ValidateRead, hr]
    rw [hred]
    unfold validateGroupActivityRegistrationRead
    by_cases h1 : q.activity = "" ∨ q.activity = C.activityID
    · have hb1 : (q.activity != "" && q.activity != C.activityID) = false := by
        rcases h1 with h | h <;> simp [h]
      rw [hb1]
      by_cases h2 : q.registration = "" ∨ q.registration = C.registration
      · have hb2 : (q.registration != "" &&
            q.registration != C.registration) = false := by
          rcases h2 with h | h <;> simp [h]
        rw [hb2]
        simp [h1, h2]
      · push_neg at h2
        have hb2 : (q.registration != "" &&
            q.registration != C.registration) = true := by
          simp [h2.1, h2.2]
        rw [hb2]
        simp [h2.1, h2.2]
    · push_neg at h1
      have hb1 : (q.activity != "" && q.activity != C.activityID) = true := by
        simp [h1.1, h1.2]
      rw [hb1]
      simp [h1.1, h1.2]

/-- C4 witness: the amended theorem applied at `claimsC4` with the empty
query, giving an admitted group-scoped read despite the null group. -/
theorem null_group_scope_behavior_witness :
    ValidateRead "strict" claimsC4 {} = none :=
  ((null_group_scope_behavior "strict" claimsC4 stmtC4 {} rfl).2 rfl).mpr
    ⟨Or.inl rfl, Or.inl rfl⟩

/-! ### C5: the agent-profile handler -/

/-- Claims whose actor has both identifiers populated, so the substring
agent check could in principle deny. -/
def claimsC5 : Claims :=
  { actor := { mbox := "mailto:a@x", openID := "https://op/a" },
    registration := "R", activityID := "act",
    permissions := { write := "false", read := "false" } }

/-- C5 counterexample: an agent parameter that does not identify the
claims' actor (it contains neither mbox nor openid) is still forwarded by
the agent-profile handler, contradicting "a request whose agent parameter
does not identify the claims' actor is not forwarded". -/
theorem agentProfile_mismatch_forwarded :
    agentIdentifies "mailto:b@x" claimsC5.actor = false ∧
    proxyAgentProfileDecision claimsC5 "mailto:b@x" = none :=
  ⟨by decide, rfl⟩

/-- C5 (amended): `ProxyAgentProfile` applies no permission check at all —
every request bearing a verified token is forwarded upstream regardless of
the agent query parameter. -/
theorem agentProfile_always_forwards (C : Claims) (agent : String) :
    proxyAgentProfileDecision C agent = none := rfl

/-! ### C6: token issuance field validation -/

/-- A token request violating every field constraint the claim lists:
empty actor, empty registration, empty activity id, and a group that
lacks `objectType = "Group"` and has zero members — but with valid scopes. -/
def reqC6 : TokenRequest :=
  { actor := {}, registration := "", activityID := "",
    permissions := { write := "actor-activity-registration-scoped",
                     read := "actor-activity-registration-scoped" },
    group := some { objectType := "NotAGroup", name := "g", member := [] } }

/-- C6 counterexample: `IssueToken` accepts `reqC6` (its validation phase
reports no error, so a token is minted), although actor, registration and
activity_id are empty and the group is malformed. -/
theorem issueToken_accepts_empty_fields :
    reqC6.registration = "" ∧ reqC6.activityID = "" ∧ reqC6.actor = {} ∧
    reqC6.group = some { objectType := "NotAGroup", name := "g",
                         member := [] } ∧
    issueTokenValidate reqC6 = none :=
  ⟨rfl, rfl, rfl, rfl, by decide⟩

/-- C6 (amended): token issuance validates only the two permission scopes —
a request is accepted iff its write and read scopes are both in the
issuance-valid scope set; no other request field is checked before the
token is minted. -/
theorem issueToken_validates_only_scopes (req : TokenRequest) :
    issueTokenValidate req = none ↔
      (req.permissions.write ∈ validScopes ∧
       req.permissions.read ∈ validScopes) := by
  by_cases h1 : req.permissions.write ∈ validScopes
  · by_cases h2 : req.permissions.read ∈ validScopes
    · simp [issueTokenValidate, ValidatePermission, h1, h2]
    · simp [issueTokenValidate, ValidatePermission, h1, h2]
  · simp [issueTokenValidate, ValidatePermission, h1]

/-! ### C7: read-only scopes requested for write -/

/-- A token request whose write scope is a read-only scope. -/
def reqC7 : TokenRequest :=
  { actor := { mbox := "mailto:e@x" }, registration := "R",
    activityID := "a",
    permissions := { write := "actor-course-registration-scoped",
                     read := "false" } }

/-- Claims as minted from `reqC7`. -/
def claimsC7 : Claims :=
  { actor := { mbox := "mailto:e@x" }, registration := "R",
    activityID := "a",
    permissions := { write := "actor-course-registration-scoped",
                     read := "false" } }

/-- A statement submitted under `claimsC7`. -/
def stmtC7 : Statement :=
  { actor := { mbox := "mailto:e@x" }, verb := { id := "v" },
    object := { id := "a" } }

/-- C7 counterexample: issuance accepts a request whose write scope is the
read-only `actor-course-registration-scoped`, contradicting "reject at
issuance". -/
theorem issueToken_accepts_readonly_write_scope :
    reqC7.permissions.write = "actor-course-registration-scoped" ∧
    issueTokenValidate reqC7 = none :=
  ⟨rfl, by decide⟩

/-- C7 (amended): a read-only scope requested for write passes issuance
validation (the valid-scope set does not distinguish read from write);
the denial happens only later, at write verification, where
`ValidateWrite`'s default branch rejects the scope for every statement. -/
theorem readonly_write_scope_deferred_denial
    (req : TokenRequest) (pol : String) (C : Claims) (s : Statement)
    (hscope : req.permissions.write = "actor-course-registration-scoped" ∨
      req.permissions.write = "actor-activity-all-registrations" ∨
      req.permissions.write = "actor-cross-course-certification")
    (hread : req.permissions.read ∈ validScopes) :
    issueTokenValidate req = none ∧
    (C.permissions.write = req.permissions.write →
      ValidateWrite pol C s ≠ none) := by
  have hwv : req.permissions.write ∈ validScopes := by
    rcases hscope with h | h | h <;> rw [h] <;> decide
  constructor
  · simp [issueTokenValidate, ValidatePermission, hwv, hread]
  · intro hw
    rcases hscope with h | h | h <;> rw [h] at hw <;> simp [ValidateWrite, hw]

/-- C7 witness: the deferred-denial theorem applied at `reqC7`. -/
theorem readonly_write_scope_deferred_denial_witness :
    issueTokenValidate reqC7 = none ∧
    ValidateWrite "strict" claimsC7 stmtC7 ≠ none :=
  have h := readonly_write_scope_deferred_denial reqC7 "strict" claimsC7
    stmtC7 (Or.inl rfl) (by decide)
  ⟨h.1, h.2 rfl⟩

/-! ### C8: token verification failure responses -/

/-- `strings.SplitN` on a well-formed bearer header splits into the scheme
and the token. -/
theorem splitFirstSpace_bearer (l : List Char) :
    splitFirstSpace
        ('B' :: 'e' :: 'a' :: 'r' :: 'e' :: 'r' :: ' ' :: l) =
      some (['B', 'e', 'a', 'r', 'e', 'r'], l) := by
  simp [splitFirstSpace]

/-- `splitN2` on `"Bearer " ++ tok` yields `["Bearer", tok]`. -/
theorem splitN2_bearer (tok : String) :
    splitN2 ("Bearer " ++ tok) = ["Bearer", tok] := by
  obtain ⟨l⟩ := tok
  show splitN2 (String.mk ('B' :: 'e' :: 'a' :: 'r' :: 'e' :: 'r' :: ' ' :: l)) =
    ["Bearer", String.mk l]
  unfold splitN2
  rw [show (String.mk ('B' :: 'e' :: 'a' :: 'r' :: 'e' :: 'r' :: ' ' :: l)).data =
      'B' :: 'e' :: 'a' :: 'r' :: 'e' :: 'r' :: ' ' :: l from rfl]
  rw [splitFirstSpace_bearer]

/-- A bearer header is never the empty string. -/
theorem bearer_append_ne_empty (tok : String) : ("Bearer " ++ tok) ≠ "" := by
  obtain ⟨l⟩ := tok
  intro h
  have hdata : ('B' :: 'e' :: 'a' :: 'r' :: 'e' :: 'r' :: ' ' :: l :
      List Char) = [] := congrArg String.data h
  simp at hdata

/-- C8 counterexample: a missing Authorization header is answered with the
text "Authorization required", not the generic "Invalid token" — two
distinct verification sub-failures produce distinct response texts. -/
theorem jwtAuth_distinct_failure_texts :
    JWTAuthMiddleware { tenantID := "t" } "" (fun _ => .parseError) =
      .reject 401 "Authorization required" ∧
    "Authorization required" ≠ "Invalid token" :=
  ⟨rfl, by decide⟩

/-- C8 (amended): every verification failure is rejected with HTTP 401,
and the library-level failures (malformed token, wrong algorithm, bad
signature, expiry), an invalid token, and a tenant mismatch all share the
generic "Invalid token" text; but a missing header yields "Authorization
required" (the counterexample), a malformed header (the Go condition
`len(parts) != 2 || parts[0] != "Bearer"`) yields "Invalid authorization
format", and a claims-decoding failure yields "Invalid token claims". -/
theorem jwtAuth_failure_uniformity (t : TenantConfig) (auth : String)
    (parse : String → JWTParseOutcome) :
    (∀ code msg, JWTAuthMiddleware t auth parse = .reject code msg →
      code = 401 ∧ (msg = "Authorization required" ∨
        msg = "Invalid authorization format" ∨ msg = "Invalid token" ∨
        msg = "Invalid token claims"))
    ∧ (∀ tok, parse tok = .parseError →
        JWTAuthMiddleware t ("Bearer " ++ tok) parse =
          .reject 401 "Invalid token")
    ∧ (∀ tok claimsOpt, parse tok = .parsed false claimsOpt →
        JWTAuthMiddleware t ("Bearer " ++ tok) parse =
          .reject 401 "Invalid token")
    ∧ (∀ tok c, parse tok = .parsed true (some c) →
        c.tenantID ≠ t.tenantID →
        JWTAuthMiddleware t ("Bearer " ++ tok) parse =
          .reject 401 "Invalid token")
    ∧ (auth ≠ "" →
        ((splitN2 auth).length ≠ 2 ∨ (splitN2 auth).head? ≠ some "Bearer") →
        JWTAuthMiddleware t auth parse =
          .reject 401 "Invalid authorization format")
    ∧ (∀ tok, parse tok = .parsed true none →
        JWTAuthMiddleware t ("Bearer " ++ tok) parse =
          .reject 401 "Invalid token claims") := by
  refine ⟨?_, ?_, ?_, ?_, ?_, ?_⟩
  · intro code msg h
    unfold JWTAuthMiddleware at h
    split at h
    · cases h; exact ⟨rfl, Or.inl rfl⟩
    · split at h
      · split at h
        · cases h; exact ⟨rfl, Or.inr (Or.inl rfl)⟩
        · split at h
          · cases h; exact ⟨rfl, Or.inr (Or.inr (Or.inl rfl))⟩
          · split at h
            · cases h; exact ⟨rfl, Or.inr (Or.inr (Or.inl rfl))⟩
            · split at h
              · cases h; exact ⟨rfl, Or.inr (Or.inr (Or.inr rfl))⟩
              · split at h
                · cases h; exact ⟨rfl, Or.inr (Or.inr (Or.inl rfl))⟩
                · cases h
      · cases h; exact ⟨rfl, Or.inr (Or.inl rfl)⟩
  · intro tok hp
    simp [JWTAuthMiddleware, bearer_append_ne_empty tok, splitN2_bearer, hp]
  · intro tok claimsOpt hp
    simp [JWTAuthMiddleware, bearer_append_ne_empty tok, splitN2_bearer, hp]
  · intro tok c hp hne
    simp [JWTAuthMiddleware, bearer_append_ne_empty tok, splitN2_bearer, hp,
      hne]
  · intro hauth hbad
    unfold JWTAuthMiddleware
    rw [if_neg hauth]
    cases hs : splitN2 auth with
    | nil => rfl
    | cons p0 rest =>
      cases rest with
      | nil => rfl
      | cons p1 rest2 =>
        cases rest2 with
        | nil =>
          rw [hs] at hbad
          rcases hbad with h | h
          · simp at h
          · have hne : p0 ≠ "Bearer" := by simpa using h
            simp [hne]
        | cons q qs => rfl
  · intro tok hp
    simp [JWTAuthMiddleware, bearer_append_ne_empty tok, splitN2_bearer, hp]

/-- C8 witness: the uniformity theorem applied at a concrete tenant,
header, and failing parse. -/
theorem jwtAuth_failure_uniformity_witness :
    JWTAuthMiddleware { tenantID := "t" } ("Bearer " ++ "x")
      (fun _ => .parseError) = .reject 401 "Invalid token" :=
  (jwtAuth_failure_uniformity { tenantID := "t" } ("Bearer " ++ "x")
    (fun _ => .parseError)).2.1 "x" rfl

/-! ### C10: empty openid neutralizes the agent check -/

/-- Claims whose actor has an empty openid (the default for a mintable
mbox-identified actor). -/
def claimsC10 : Claims :=
  { actor := { mbox := "mailto:z@x" }, registration := "r",
    activityID := "a",
    permissions := { write := "false",
                     read := "actor-activity-registration-scoped" } }

/-- C10: when the claims' actor has an empty `openid`, the results of
`ValidateRead` and `ValidateStateAccess` are independent of the agent
parameter — two runs differing only in the agent value return the same
result, because `strings.Contains(agent, "")` always holds, so the
agent-identifies-actor check can never deny. -/
theorem empty_openid_agent_irrelevant (pol : String) (C : Claims)
    (hopen : C.actor.openID = "") (q : Query) (a1 a2 : String)
    (aid reg : String) :
    ValidateRead pol C { q with agent := a1 } =
      ValidateRead pol C { q with agent := a2 }
    ∧ ValidateStateAccess C aid a1 reg = ValidateStateAccess C aid a2 reg := by
  have key := agentIdentifies_of_openID_empty C.actor hopen
  constructor
  · by_cases h1 : C.permissions.read = "false"
    · simp [ValidateRead, h1]
    · by_cases h2 : C.permissions.read = "actor-activity-registration-scoped"
      · simp [ValidateRead, h1, h2, validateActorActivityRegistrationRead, key]
      · by_cases h3 : C.permissions.read = "actor-course-registration-scoped"
        · simp [ValidateRead, h1, h2, h3, validateActorCourseRegistrationRead,
            key]
        · by_cases h4 : C.permissions.read = "actor-activity-all-registrations"
          · simp [ValidateRead, h1, h2, h3, h4,
              validateActorActivityAllRegistrationsRead, key]
          · by_cases h5 : C.permissions.read =
                "group-activity-registration-scoped"
            · simp [ValidateRead, h1, h2, h3, h4, h5,
                validateGroupActivityRegistrationRead]
            · simp [ValidateRead, h1, h2, h3, h4, h5]
  · simp [ValidateStateAccess, key]

/-- C10 witness: two reads under `claimsC10` that differ only in the agent
parameter — one naming a different actor — evaluate to the same result. -/
theorem empty_openid_agent_irrelevant_witness :
    ValidateRead "strict" claimsC10 { agent := "mailto:z@x" } =
      ValidateRead "strict" claimsC10 { agent := "mailto:other@y" } :=
  (empty_openid_agent_irrelevant "strict" claimsC10 rfl {} "mailto:z@x"
    "mailto:other@y" "a" "r").1
